import Mathlib

/-!
Verification of the Kangaroo batch-download orchestrator.

Shallow embedding of the batch download core: the `DownloadTask` lifecycle
state machine, the retrying certificate fetcher (`CertificateParser.parse`),
the sequential dispatch loop of `DownloadTask.start`, the persistence step
(`DownloadTask.saveFile`), the ETA/progress queries and the progress
notification policy of `DownloadTask.parseWrapper`.

Machine floats of the source are modelled as rationals; wall-clock
timestamps are abstract nonnegative rationals supplied as data.
-/

namespace Kangaroo

/-- `DownloadState` enum of `kangaroo.py`: lifecycle states of a task.
`DEFAULT` is the class-level initial value, replaced by `CREATED` in the
constructor before the object is visible to callers. -/
inductive DownloadState where
  | DEFAULT
  | CREATED
  | STARTED
  | COMPLETED
  | SAVED
  | STOPPED
deriving DecidableEq, Repr

/-- `KangarooWarning` enum: error notifications emitted toward the UI. -/
inductive KangarooWarning where
  | MAX_REACHED
  | DOWNLOAD_EXISTS
  | NOT_SELECTED
  | FOLDER_NOT_EXISTS
  | NOT_A_FOLDER
  | FILE_EXISTS
  | INVALID_NAME
deriving DecidableEq, Repr

/-- `CertState` enum: per-item outcome classification recorded by
`logDownloadState`. -/
inductive CertState where
  | DOWNLOADED
  | NOT_FOUND
  | FAILED
deriving DecidableEq, Repr

/-- `DownloadTask.running`: `self.state not in (STOPPED, COMPLETED, SAVED)`. -/
def running (s : DownloadState) : Bool :=
  !(s == .STOPPED || s == .COMPLETED || s == .SAVED)

/-- `DownloadTask.cancelled`: `self.state is DownloadState.STOPPED`. -/
def cancelled (s : DownloadState) : Bool :=
  s == .STOPPED

/-! ### The retrying fetcher (`CertificateParser.parse`, `main.py`) -/

/-- A successfully opened result page, as `parse` inspects it after
`browser.open` returns without a connection error: either the page carries no
`tmpNombrePlantel` field (no certificate under that code), or it does, in
which case the remaining fields may be incomplete (the `IndexError` branch)
or form a complete record. -/
inductive Page where
  | noPlantel
  | withPlantel (fieldsMissing : Bool) (record : List (String × String))
deriving DecidableEq, Repr

/-- One `browser.open` attempt: either `requests.exceptions.ConnectionError`
is raised, or a page is retrieved. The network is modelled as a function from
the attempt index to its result. -/
inductive AttemptResult where
  | connError
  | page (p : Page)
deriving DecidableEq, Repr

/-- Per-item result of `parse`: a complete record dict, `None` (absent), or
`False` (failed). -/
inductive Outcome where
  | found (record : List (String × String))
  | absent
  | failed
deriving DecidableEq, Repr

/-- `CertificateParser._retry_attempts`. -/
def retryAttempts : Nat := 4

/-- The `while not request_ok and attempts < self._retry_attempts` loop of
`parse`: attempt `i` consults `net i`; a `ConnectionError` increments the
failure count (here: decrements the remaining budget) and retries; any
retrieved page ends the loop. `none` means the budget was exhausted. -/
def openLoop (net : Nat → AttemptResult) : Nat → Nat → Option Page
  | _, 0 => none
  | i, fuel + 1 =>
    match net i with
    | .connError => openLoop net (i + 1) fuel
    | .page p => some p

/-- The body of `parse` after the page is opened: no `plantel` element means
`return None`; a present `plantel` with a missing field raises `IndexError`
and returns `False`; otherwise the record dict is built with the `number`
key first. -/
def handlePage (numberCode : Nat) : Page → Outcome
  | .noPlantel => .absent
  | .withPlantel true _ => .failed
  | .withPlantel false record => .found (("number", toString numberCode) :: record)

/-- `CertificateParser.parse`, with the network abstracted as the sequence of
attempt results: run the bounded open loop; exhaustion returns `False`
(`Failed`), a retrieved page is classified by `handlePage`. -/
def parse (net : Nat → AttemptResult) (numberCode : Nat) : Outcome :=
  match openLoop net 0 retryAttempts with
  | none => .failed
  | some p => handlePage numberCode p

/-- Concrete network trace used as evaluation input: one connection error,
then a page with no certificate on it. -/
def netAbsentAfterRetry : Nat → AttemptResult
  | 0 => .connError
  | _ => .page .noPlantel

/-! ### The dispatch loop of `DownloadTask.start` (sequential mode) -/

/-- `DownloadTask.range_start`: `self.batch_size * (self.batch - 1)`. -/
def rangeStart (batchSize batch : Nat) : Nat :=
  batchSize * (batch - 1)

/-- `DownloadTask.range_end`: `self.batch_size * self.batch`. -/
def rangeEnd (batchSize batch : Nat) : Nat :=
  batchSize * batch

/-- `DownloadTask.logDownloadState`: classify one `parse` result. The default
is `DOWNLOADED`; `None` (absent) becomes `NOT_FOUND`, `False` becomes
`FAILED`. -/
def certStateOf : Outcome → CertState
  | .absent => .NOT_FOUND
  | .failed => .FAILED
  | .found _ => .DOWNLOADED

/-- A value of the persisted result map `cert_data`: the record dict with the
`number` key popped, JSON `null` for an absent item, or JSON `false` for a
failed one. -/
inductive StoredItem where
  | record (fields : List (String × String))
  | nullItem
  | falseItem
deriving DecidableEq, Repr

/-- The second loop of `start`: `if new_cert: new_cert.pop('number')` — a
(nonempty) record dict is truthy so its `number` key is removed; `None` and
`False` are stored as they are. -/
def stripNumber : Outcome → StoredItem
  | .found r => .record (r.filter (fun p => p.1 ≠ "number"))
  | .absent => .nullItem
  | .failed => .falseItem

/-- The IDs actually dispatched by the first loop of `start` in sequential
mode: the loop walks `range(range_start, range_end)` in order and checks
`cancel_event.is_set()` before each dispatch. `stopBefore = some k` models a
`stop()` whose cancellation flag becomes visible before the `k`-th dispatch
(0-indexed); `none` models a run that is never stopped. -/
def dispatchedIds (batchSize batch : Nat) (stopBefore : Option Nat) : List Nat :=
  let rs := rangeStart batchSize batch
  let total := rangeEnd batchSize batch - rs
  let n := match stopBefore with
    | none => total
    | some k => min k total
  (List.range n).map (fun j => rs + j)

/-- Observable result of one sequential `start` run. `downloadItems` is
`self._download_items` (ID, parse result) in dispatch order; `statuses` is
`self._download_statuses`; `certData` is `self.cert_data`, assigned only when
the dispatch loop runs to completion; `finalState` is the task state when
`start` returns (before any `saveFile` call): `STOPPED` was written by
`stop()` when the run was cancelled, otherwise `start` writes `COMPLETED`. -/
structure RunResult where
  downloadItems : List (Nat × Outcome)
  statuses : List CertState
  certData : Option (List (Nat × StoredItem))
  finalState : DownloadState
deriving DecidableEq, Repr

/-- `DownloadTask.start` in sequential (`threaded=False`) mode, with the
fetcher abstracted as `fetch : ID → Outcome` and the cancellation point as
`stopBefore` (see `dispatchedIds`). When the cancellation flag is seen the
loop returns at once: `cert_data` is never assigned and the state remains
the `STOPPED` written by `stop()`. Otherwise the second loop builds
`cert_data` from `_download_items`, stripping the `number` key from each
record, and the state advances to `COMPLETED`. -/
def startSeq (fetch : Nat → Outcome) (batchSize batch : Nat)
    (stopBefore : Option Nat) : RunResult :=
  let ids := dispatchedIds batchSize batch stopBefore
  let items := ids.map (fun i => (i, fetch i))
  let stopped := match stopBefore with
    | none => false
    | some k => decide (k < rangeEnd batchSize batch - rangeStart batchSize batch)
  { downloadItems := items
    statuses := items.map (fun p => certStateOf p.2)
    certData := if stopped then none
      else some (items.map (fun p => (p.1, stripNumber p.2)))
    finalState := if stopped then .STOPPED else .COMPLETED }

/-- `DownloadTask.fetched_certs`: `len(self._download_statuses)`. -/
def fetchedCerts (r : RunResult) : Nat :=
  r.statuses.length

/-- `DownloadTask.successful_certs`. -/
def successfulCerts (r : RunResult) : Nat :=
  r.statuses.count .DOWNLOADED

/-- `DownloadTask.failed_certs`. -/
def failedCerts (r : RunResult) : Nat :=
  r.statuses.count .FAILED

/-- `DownloadTask.not_found_certs`. -/
def notFoundCerts (r : RunResult) : Nat :=
  r.statuses.count .NOT_FOUND

/-- Concrete fetcher used as evaluation input. -/
def fetchSample : Nat → Outcome
  | 0 => .found [("number", "0"), ("nombre", "A")]
  | 1 => .absent
  | _ => .failed

/-! ### Persistence (`DownloadTask.saveFile`) -/

/-- The configured download folder: whether it exists on disk, and its files
as an association list from file name to contents. -/
structure Folder where
  folderExists : Bool
  files : List (String × String)
deriving DecidableEq, Repr

/-- `self._output_file.exists()`. -/
def fileExistsIn (fs : Folder) (name : String) : Bool :=
  (fs.files.lookup name).isSome

/-- `open(self._output_file, 'w')` followed by `json.dump`: create the file
or truncate an existing one, leaving every other file untouched. -/
def writeFile (fs : Folder) (name body : String) : Folder :=
  { fs with files := (name, body) :: fs.files.filter (fun p => p.1 ≠ name) }

/-- Observable result of one `saveFile` call: the warning emitted through
`saving_error` (if any), the folder contents afterwards, and the task state
afterwards. -/
structure SaveResult where
  warning : Option KangarooWarning
  folder : Folder
  state : DownloadState
deriving DecidableEq, Repr

/-- `DownloadTask.saveFile`. `formatRes` is the result of `formatName()`
(`none` models the `ValueError` raised on an invalid filename format) and
`body` the serialised `cert_data`. The guard order follows the source:
invalid name, then missing folder, then existing output file without
`overwrite`; each guard emits its warning and returns without touching the
folder or the state. Only after all guards pass is the file written, the
digests taken, and the state set to `SAVED`. -/
def saveFile (fs : Folder) (st : DownloadState) (formatRes : Option String)
    (overwrite : Bool) (body : String) : SaveResult :=
  match formatRes with
  | none => ⟨some .INVALID_NAME, fs, st⟩
  | some name =>
    if !fs.folderExists then ⟨some .FOLDER_NOT_EXISTS, fs, st⟩
    else if fileExistsIn fs name && !overwrite then ⟨some .FILE_EXISTS, fs, st⟩
    else ⟨none, writeFile fs name body, .SAVED⟩

/-- Concrete folder used as evaluation input. -/
def folderSample : Folder :=
  ⟨true, [("certificate_data_001.json", "previous contents")]⟩

/-! ### Rounding, ETA and progress -/

/-- Python's built-in `round` on a rational: round half to even. -/
def pyRound (q : ℚ) : ℤ :=
  if q - ⌊q⌋ < 1 / 2 then ⌊q⌋
  else if 1 / 2 < q - ⌊q⌋ then ⌊q⌋ + 1
  else if ⌊q⌋ % 2 = 0 then ⌊q⌋ else ⌊q⌋ + 1

/-- `self._download_times[-to_average:]`: the last `n` recorded timing
samples (most-recent-last). -/
def lastSamples (n : Nat) (times : List ℚ) : List ℚ :=
  times.drop (times.length - n)

/-- The moving average of `DownloadTask.eta`: the mean of the last
`min(4, len(self._download_times))` samples. -/
def etaAverage (times : List ℚ) : ℚ :=
  (lastSamples (min 4 times.length) times).sum / (min 4 times.length : ℚ)

/-- `remaining_packets` of `DownloadTask.eta`:
`self.batch_size - self.relative_cert`, divided by the worker count when
`self.threaded`. -/
def remainingPackets (batchSize relativeCert maxWorkers : Nat)
    (threaded : Bool) : ℚ :=
  if threaded then ((batchSize : ℚ) - relativeCert) / maxWorkers
  else (batchSize : ℚ) - relativeCert

/-- `DownloadTask.eta`, as the whole number of seconds the source computes
(`round(average * remaining_packets)`; the `str(datetime.timedelta(...))`
rendering of that value is presentation only). The guard follows the source:
a value is produced only when the state is not `STOPPED` and at least one
timing sample has been recorded; otherwise the property returns `None`. -/
def eta (st : DownloadState) (times : List ℚ)
    (batchSize relativeCert maxWorkers : Nat) (threaded : Bool) : Option ℤ :=
  if st ≠ DownloadState.STOPPED ∧ 1 ≤ times.length then
    some (pyRound (etaAverage times *
      remainingPackets batchSize relativeCert maxWorkers threaded))
  else none

/-- The notification guard of `DownloadTask.parseWrapper`:
`(cert_number % self._max_workers == 0) or not self.threaded`. -/
def parseWrapperEmits (certNumber maxWorkers : Nat) (threaded : Bool) : Bool :=
  (certNumber % maxWorkers == 0) || !threaded

/-- `DownloadTask.progress`:
`round(self.relative_cert / self.batch_size * 100)`, with a rounded value of
exactly 100 reported as 99. -/
def progress (relativeCert batchSize : Nat) : ℤ :=
  if pyRound ((relativeCert : ℚ) / (batchSize : ℚ) * 100) = 100 then 99
  else pyRound ((relativeCert : ℚ) / (batchSize : ℚ) * 100)

/-! ### The lifecycle state graph -/

/-- `DownloadTask.stop`: `if self.running and not self.cancelled:
self.state = DownloadState.STOPPED` (the future-cancelling and flag-setting
side effects are modelled by `startSeq`'s `stopBefore`). -/
def stopTransition (s : DownloadState) : DownloadState :=
  if running s && !(cancelled s) then .STOPPED else s

/-- The lifecycle edges exactly as the specification draws them:
`Created → Started → {Completed → Saved} | Stopped`. -/
def claimedEdge (a b : DownloadState) : Bool :=
  (a == .CREATED && b == .STARTED) || (a == .STARTED && b == .COMPLETED) ||
    (a == .STARTED && b == .STOPPED) || (a == .COMPLETED && b == .SAVED)

/-- The amended lifecycle edges: the claimed graph plus `Created → Stopped`,
since `stop()`'s guard (`running and not cancelled`) also accepts a created,
not yet started task. -/
def amendedEdge (a b : DownloadState) : Bool :=
  claimedEdge a b || (a == .CREATED && b == .STOPPED)

/-- Rank of a state in the lifecycle order; every accepted transition
strictly increases it, so no state is ever revisited along a run. -/
def stateRank : DownloadState → Nat
  | .DEFAULT => 0
  | .CREATED => 0
  | .STARTED => 1
  | .COMPLETED => 2
  | .SAVED => 3
  | .STOPPED => 4

/-- The state writes the public operations can perform, with exactly the
guards the source has. `start` writes `STARTED` as its first statement,
unconditionally and from any state; the end of a run writes `COMPLETED`,
which the cooperative cancellation check reaches only from `STARTED` (a
stopped run returns before that write, and a `start` invoked in any state
has just written `STARTED`); `stop` rewrites the state through
`stopTransition`, whose `running and not cancelled` test is the only state
guard in the source; `saveFile`'s guards inspect only the filename and the
filesystem, never the state, so a successful save writes `SAVED` from any
state. -/
inductive LifecycleStep : DownloadState → DownloadState → Prop where
  | startEntry (s : DownloadState) : LifecycleStep s .STARTED
  | runComplete : LifecycleStep .STARTED .COMPLETED
  | doStop (s : DownloadState) (h : stopTransition s ≠ s) :
      LifecycleStep s (stopTransition s)
  | saveSuccess (s : DownloadState) : LifecycleStep s .SAVED

end Kangaroo

namespace Kangaroo

/-- C1 -- counterexample. The claim states that `running` is false in the
`Created` state; in the code `running` checks membership in
`(STOPPED, COMPLETED, SAVED)` only, so a freshly created (not yet started)
task already reports `running = true`. -/
theorem running_created_counterexample :
    running DownloadState.CREATED = true ∧
      DownloadState.CREATED ≠ DownloadState.STARTED := by
  decide

/-- C1 -- amended claim. For every reachable lifecycle state (every state
other than the pre-constructor `DEFAULT`), `running` is true exactly when the
state is `Created` or `Started` (that is, not yet `Completed`, `Saved` or
`Stopped`), and `cancelled` is true exactly when the state is `Stopped`. -/
theorem running_cancelled_characterisation (s : DownloadState)
    (h : s ≠ DownloadState.DEFAULT) :
    (running s = true ↔ (s = DownloadState.CREATED ∨ s = DownloadState.STARTED)) ∧
      (cancelled s = true ↔ s = DownloadState.STOPPED) := by
  cases s <;> simp_all [running, cancelled]

/-- C1 -- witness: the amended characterisation evaluated at `STARTED`. -/
theorem running_cancelled_characterisation_witness :
    (running DownloadState.STARTED = true ↔
      (DownloadState.STARTED = DownloadState.CREATED ∨
        DownloadState.STARTED = DownloadState.STARTED)) ∧
      (cancelled DownloadState.STARTED = true ↔
        DownloadState.STARTED = DownloadState.STOPPED) :=
  running_cancelled_characterisation DownloadState.STARTED (by decide)

/-- If every attempt in the budget raises a connection error, the open loop
exhausts its budget. -/
theorem openLoop_exhausted (net : Nat → AttemptResult) :
    ∀ fuel i, (∀ j, j < fuel → net (i + j) = .connError) →
      openLoop net i fuel = none := by
  intro fuel
  induction fuel with
  | zero => intro i _; rfl
  | succ f ih =>
    intro i h
    have h0 : net i = .connError := by
      have := h 0 (Nat.succ_pos f)
      simpa using this
    simp only [openLoop, h0]
    exact ih (i + 1) (fun j hj => by
      have := h (j + 1) (Nat.succ_lt_succ hj)
      simpa [Nat.add_assoc, Nat.add_comm 1 j] using this)

/-- If the first `k` attempts raise connection errors and attempt `k` (within
budget) retrieves a page, the open loop returns that page: any successful
attempt ends the retry loop. -/
theorem openLoop_success (net : Nat → AttemptResult) :
    ∀ k fuel i, k < fuel → (∀ j, j < k → net (i + j) = .connError) →
      ∀ p, net (i + k) = .page p → openLoop net i fuel = some p := by
  intro k
  induction k with
  | zero =>
    intro fuel i hk hconn p hp
    obtain ⟨f, rfl⟩ := Nat.exists_eq_succ_of_ne_zero (Nat.pos_iff_ne_zero.mp hk)
    have h0 : net i = .page p := by simpa using hp
    simp [openLoop, h0]
  | succ k ih =>
    intro fuel i hk hconn p hp
    obtain ⟨f, rfl⟩ := Nat.exists_eq_succ_of_ne_zero
      (Nat.pos_iff_ne_zero.mp (Nat.lt_of_le_of_lt (Nat.zero_le _) hk))
    have h0 : net i = .connError := by
      have := hconn 0 (Nat.succ_pos k)
      simpa using this
    simp only [openLoop, h0]
    refine ih f (i + 1) (Nat.lt_of_succ_lt_succ hk) (fun j hj => ?_) p ?_
    · have := hconn (j + 1) (Nat.succ_lt_succ hj)
      simpa [Nat.add_assoc, Nat.add_comm 1 j] using this
    · have : i + 1 + k = i + (k + 1) := by omega
      rw [this]; exact hp

/-- The open loop only consults attempt indices below its budget. -/
theorem openLoop_local (net net2 : Nat → AttemptResult) :
    ∀ fuel i, (∀ j, j < fuel → net (i + j) = net2 (i + j)) →
      openLoop net i fuel = openLoop net2 i fuel := by
  intro fuel
  induction fuel with
  | zero => intro i _; rfl
  | succ f ih =>
    intro i h
    have h0 : net i = net2 i := by
      have := h 0 (Nat.succ_pos f)
      simpa using this
    simp only [openLoop, ← h0]
    cases hcase : net i with
    | connError =>
      exact ih (i + 1) (fun j hj => by
        have := h (j + 1) (Nat.succ_lt_succ hj)
        simpa [Nat.add_assoc, Nat.add_comm 1 j] using this)
    | page p => rfl

/-- C2. `parse` retries only connection-class failures, within a budget of 4
attempts: (a) if all 4 attempts raise connection errors the result is
`Failed`; (b) a page retrieved at any attempt `k < 4` after `k` connection
errors ends the loop and the result is that page's classification; (c) in
particular a page with no certificate on it ends the loop with `Absent`;
(d) the result depends only on the first 4 attempt results (no fifth attempt
is ever consulted); (e) a retrieved page whose record is missing fields
yields `Failed` with no further retry. -/
theorem parse_retry_policy (net : Nat → AttemptResult) (numberCode : Nat) :
    ((∀ i, i < retryAttempts → net i = .connError) →
      parse net numberCode = .failed) ∧
    (∀ k, k < retryAttempts → (∀ i, i < k → net i = .connError) →
      ∀ p, net k = .page p → parse net numberCode = handlePage numberCode p) ∧
    (∀ k, k < retryAttempts → (∀ i, i < k → net i = .connError) →
      net k = .page .noPlantel → parse net numberCode = .absent) ∧
    (∀ net2, (∀ i, i < retryAttempts → net i = net2 i) →
      parse net numberCode = parse net2 numberCode) ∧
    (∀ k r, k < retryAttempts → (∀ i, i < k → net i = .connError) →
      net k = .page (.withPlantel true r) → parse net numberCode = .failed) := by
  refine ⟨?_, ?_, ?_, ?_, ?_⟩
  · intro h
    have := openLoop_exhausted net retryAttempts 0 (fun j hj => by
      simpa using h j hj)
    simp [parse, this]
  · intro k hk hconn p hp
    have := openLoop_success net k retryAttempts 0 hk
      (fun j hj => by simpa using hconn j hj) p (by simpa using hp)
    simp [parse, this]
  · intro k hk hconn hp
    have := openLoop_success net k retryAttempts 0 hk
      (fun j hj => by simpa using hconn j hj) .noPlantel (by simpa using hp)
    simp [parse, this, handlePage]
  · intro net2 h
    have := openLoop_local net net2 retryAttempts 0 (fun j hj => by
      simpa using h j hj)
    simp [parse, this]
  · intro k r hk hconn hp
    have := openLoop_success net k retryAttempts 0 hk
      (fun j hj => by simpa using hconn j hj) (.withPlantel true r)
      (by simpa using hp)
    simp [parse, this, handlePage]

/-- C2 -- witness: on a trace with one connection error followed by a page
carrying no certificate, `parse` returns `Absent` by clause (c) at `k = 1`. -/
theorem parse_retry_policy_witness :
    parse netAbsentAfterRetry 7 = Outcome.absent :=
  (parse_retry_policy netAbsentAfterRetry 7).2.2.1 1 (by decide)
    (fun i hi => by interval_cases i; rfl) (by rfl)

/-- Every recorded status is one of the three `CertState` tags, so the three
per-tag counts add up to the list length. -/
theorem certState_count_total (l : List CertState) :
    l.count .DOWNLOADED + l.count .FAILED + l.count .NOT_FOUND = l.length := by
  induction l with
  | nil => rfl
  | cons a t ih => cases a <;> simp [List.count_cons] <;> omega

/-- The dispatch range `[range_start, range_end)` never holds more than
`batch_size` IDs (and holds exactly `batch_size` of them when `batch ≥ 1`). -/
theorem range_length_le (batchSize batch : Nat) :
    rangeEnd batchSize batch - rangeStart batchSize batch ≤ batchSize := by
  cases batch with
  | zero => simp [rangeEnd, rangeStart]
  | succ b => simp [rangeEnd, rangeStart, Nat.mul_succ]

/-- For a well-formed batch number (`batch ≥ 1`) the dispatch range holds
exactly `batch_size` IDs. -/
theorem range_length_eq (batchSize batch : Nat) (hb : 1 ≤ batch) :
    rangeEnd batchSize batch - rangeStart batchSize batch = batchSize := by
  obtain ⟨b, rfl⟩ := Nat.exists_eq_add_of_le hb
  simp [rangeEnd, rangeStart, Nat.mul_succ, Nat.mul_add]

/-- C3. At every point of a sequential run (any fetcher, any cancellation
point), the successful, failed and not-found counts add up to the fetched
count, and the fetched count never exceeds the batch size. -/
theorem outcome_counts_invariant (fetch : Nat → Outcome)
    (batchSize batch : Nat) (stopBefore : Option Nat) :
    successfulCerts (startSeq fetch batchSize batch stopBefore) +
        failedCerts (startSeq fetch batchSize batch stopBefore) +
        notFoundCerts (startSeq fetch batchSize batch stopBefore) =
      fetchedCerts (startSeq fetch batchSize batch stopBefore) ∧
    fetchedCerts (startSeq fetch batchSize batch stopBefore) ≤ batchSize := by
  constructor
  · exact certState_count_total _
  · have hle := range_length_le batchSize batch
    cases stopBefore with
    | none =>
      simpa [fetchedCerts, startSeq, dispatchedIds] using hle
    | some k =>
      simp only [fetchedCerts, startSeq, dispatchedIds, List.length_map,
        List.length_range]
      omega

/-- C5. A sequential run that is never stopped finishes in `COMPLETED` with a
result map of exactly `batch_size` entries, keyed in order by the IDs of
`[range_start, range_end)`, and every stored record has its `number` field
removed. -/
theorem completed_result_map (fetch : Nat → Outcome)
    (batchSize batch : Nat) (hb : 1 ≤ batch) :
    (startSeq fetch batchSize batch none).finalState = DownloadState.COMPLETED ∧
    ∃ m, (startSeq fetch batchSize batch none).certData = some m ∧
      m.length = batchSize ∧
      m.map Prod.fst =
        (List.range batchSize).map (fun j => rangeStart batchSize batch + j) ∧
      ∀ p ∈ m, ∀ fields, p.2 = StoredItem.record fields →
        ∀ kv ∈ fields, kv.1 ≠ "number" := by
  have htot := range_length_eq batchSize batch hb
  refine ⟨by simp [startSeq], ?_⟩
  refine ⟨((dispatchedIds batchSize batch none).map
    (fun i => (i, fetch i))).map (fun p => (p.1, stripNumber p.2)),
    by simp [startSeq], ?_, ?_, ?_⟩
  · simp [dispatchedIds, htot]
  · simp [dispatchedIds, htot, List.map_map, Function.comp]
  · intro p hp fields heq kv hkv
    simp only [List.mem_map] at hp
    obtain ⟨q, hq, rfl⟩ := hp
    cases ho : q.2 with
    | found r =>
      rw [ho] at heq
      simp only [stripNumber, StoredItem.record.injEq] at heq
      subst heq
      have := (List.mem_filter.mp hkv).2
      simpa using this
    | absent => rw [ho] at heq; simp [stripNumber] at heq
    | failed => rw [ho] at heq; simp [stripNumber] at heq

/-- C5 -- witness: batch 1 of size 2 over the sample fetcher. -/
theorem completed_result_map_witness :
    (startSeq fetchSample 2 1 none).finalState = DownloadState.COMPLETED ∧
    ∃ m, (startSeq fetchSample 2 1 none).certData = some m ∧
      m.length = 2 ∧
      m.map Prod.fst = (List.range 2).map (fun j => rangeStart 2 1 + j) ∧
      ∀ p ∈ m, ∀ fields, p.2 = StoredItem.record fields →
        ∀ kv ∈ fields, kv.1 ≠ "number" :=
  completed_result_map fetchSample 2 1 (by decide)

/-- C6. Stopping a sequential run before the `k`-th dispatch (`k` strictly
below the batch size) leaves exactly `k` entries in `_download_items` —
strictly fewer than `batch_size` — records no outcome for any undispatched
ID, never assigns the result map `cert_data`, and leaves the final state at
`STOPPED`, not `COMPLETED`. -/
theorem stop_sequential_run (fetch : Nat → Outcome)
    (batchSize batch k : Nat) (hb : 1 ≤ batch) (hk : k < batchSize) :
    (startSeq fetch batchSize batch (some k)).finalState = DownloadState.STOPPED ∧
    (startSeq fetch batchSize batch (some k)).finalState ≠ DownloadState.COMPLETED ∧
    (startSeq fetch batchSize batch (some k)).downloadItems.length = k ∧
    (startSeq fetch batchSize batch (some k)).downloadItems.length < batchSize ∧
    (∀ i v, rangeStart batchSize batch + k ≤ i →
      (i, v) ∉ (startSeq fetch batchSize batch (some k)).downloadItems) ∧
    (startSeq fetch batchSize batch (some k)).certData = none := by
  have htot := range_length_eq batchSize batch hb
  have hstop : (k < rangeEnd batchSize batch - rangeStart batchSize batch) := by
    omega
  have hlen : (startSeq fetch batchSize batch (some k)).downloadItems.length = k := by
    simp only [startSeq, dispatchedIds, List.length_map, List.length_range]
    omega
  refine ⟨by simp [startSeq, hstop], by simp [startSeq, hstop], hlen,
    by omega, ?_, by simp [startSeq, hstop]⟩
  intro i v hi hmem
  have hkey : i ∈ ((startSeq fetch batchSize batch (some k)).downloadItems).map
      Prod.fst :=
    List.mem_map_of_mem Prod.fst hmem
  rw [show ((startSeq fetch batchSize batch (some k)).downloadItems).map Prod.fst
      = dispatchedIds batchSize batch (some k) by
    simp [startSeq, List.map_map, Function.comp_def]] at hkey
  simp only [dispatchedIds, List.mem_map, List.mem_range] at hkey
  obtain ⟨j, hj, hji⟩ := hkey
  omega

/-- C6 -- witness: batch 1 of size 3 stopped before the second dispatch. -/
theorem stop_sequential_run_witness :
    (startSeq fetchSample 3 1 (some 1)).finalState = DownloadState.STOPPED ∧
    (startSeq fetchSample 3 1 (some 1)).finalState ≠ DownloadState.COMPLETED ∧
    (startSeq fetchSample 3 1 (some 1)).downloadItems.length = 1 ∧
    (startSeq fetchSample 3 1 (some 1)).downloadItems.length < 3 ∧
    (∀ i v, rangeStart 3 1 + 1 ≤ i →
      (i, v) ∉ (startSeq fetchSample 3 1 (some 1)).downloadItems) ∧
    (startSeq fetchSample 3 1 (some 1)).certData = none :=
  stop_sequential_run fetchSample 3 1 1 (by decide) (by decide)

/-- C4. When the resolved output path already exists in an existing folder
and `overwrite` is false, `saveFile` emits `FILE_EXISTS`, leaves every file
of the folder untouched, and leaves the task state unchanged — it never
advances to `SAVED`. -/
theorem save_existing_no_overwrite (fs : Folder) (st : DownloadState)
    (name body : String) (hfolder : fs.folderExists = true)
    (hfile : fileExistsIn fs name = true) :
    saveFile fs st (some name) false body =
      ⟨some KangarooWarning.FILE_EXISTS, fs, st⟩ := by
  simp [saveFile, hfolder, hfile]

/-- C4 -- witness: re-saving over `certificate_data_001.json` without
`overwrite` fails with `FILE_EXISTS` and changes nothing. -/
theorem save_existing_no_overwrite_witness :
    saveFile folderSample DownloadState.COMPLETED
        (some "certificate_data_001.json") false "new contents" =
      ⟨some KangarooWarning.FILE_EXISTS, folderSample,
        DownloadState.COMPLETED⟩ :=
  save_existing_no_overwrite folderSample DownloadState.COMPLETED
    "certificate_data_001.json" "new contents" rfl rfl

/-- `pyRound` never rounds below the floor. -/
theorem floor_le_pyRound (q : ℚ) : ⌊q⌋ ≤ pyRound q := by
  simp only [pyRound]
  split_ifs <;> omega

/-- `pyRound` never rounds above the ceiling (floor plus one). -/
theorem pyRound_le_floor_add_one (q : ℚ) : pyRound q ≤ ⌊q⌋ + 1 := by
  simp only [pyRound]
  split_ifs <;> omega

/-- `pyRound` of a nonnegative rational is nonnegative. -/
theorem pyRound_nonneg (q : ℚ) (h : 0 ≤ q) : 0 ≤ pyRound q :=
  le_trans (Int.floor_nonneg.mpr h) (floor_le_pyRound q)

/-- `pyRound` never rounds past an integer bound. -/
theorem pyRound_le_of_le (q : ℚ) (c : ℤ) (h : q ≤ (c : ℚ)) : pyRound q ≤ c := by
  by_cases hf : ⌊q⌋ < c
  · exact le_trans (pyRound_le_floor_add_one q) (by omega)
  · have hfc : ⌊q⌋ = c := by
      have := Int.floor_le_floor h
      rw [Int.floor_intCast] at this
      omega
    have hq : q = (c : ℚ) := by
      refine le_antisymm h ?_
      calc (c : ℚ) = (⌊q⌋ : ℚ) := by rw [hfc]
        _ ≤ q := Int.floor_le q
    subst hq
    simp [pyRound, Int.floor_intCast]

/-- C7. The ETA query yields no value exactly when the task is `STOPPED` or
no timing sample has been recorded; whenever it yields a value, that value is
the (rounded) average of the last `min(4, historyLength)` samples multiplied
by the remaining-item count — divided by the worker count in parallel mode —
and it is nonnegative. -/
theorem eta_spec (st : DownloadState) (times : List ℚ)
    (batchSize relativeCert maxWorkers : Nat) (threaded : Bool)
    (hpos : ∀ t ∈ times, 0 ≤ t) (hrel : relativeCert ≤ batchSize) :
    (eta st times batchSize relativeCert maxWorkers threaded = none ↔
      (st = DownloadState.STOPPED ∨ times = [])) ∧
    (∀ v, eta st times batchSize relativeCert maxWorkers threaded = some v →
      v = pyRound (etaAverage times *
        remainingPackets batchSize relativeCert maxWorkers threaded) ∧
      0 ≤ v) := by
  have havg : 0 ≤ etaAverage times := by
    apply div_nonneg
    · apply List.sum_nonneg
      intro t ht
      exact hpos t (List.mem_of_mem_drop ht)
    · positivity
  have hrem : 0 ≤ remainingPackets batchSize relativeCert maxWorkers threaded := by
    have hsub : (0 : ℚ) ≤ (batchSize : ℚ) - relativeCert := by
      rw [sub_nonneg]
      exact_mod_cast hrel
    unfold remainingPackets
    split_ifs
    · positivity
    · exact hsub
  constructor
  · simp only [eta]
    split_ifs with h
    · simp only [reduceCtorEq, false_iff]
      push_neg
      exact ⟨h.1, by
        intro hnil
        rw [hnil] at h
        simp at h⟩
    · simp only [true_iff]
      push_neg at h
      by_cases hst : st = DownloadState.STOPPED
      · exact Or.inl hst
      · refine Or.inr ?_
        have := h hst
        rw [← List.length_eq_zero]
        omega
  · intro v hv
    simp only [eta] at hv
    split_ifs at hv with h
    · obtain rfl : pyRound (etaAverage times *
          remainingPackets batchSize relativeCert maxWorkers threaded) = v :=
        Option.some.injEq _ _ ▸ hv
      exact ⟨rfl, pyRound_nonneg _ (mul_nonneg havg hrem)⟩

/-- C7 -- witness: a started, parallel task with two samples. -/
theorem eta_spec_witness :
    ((eta DownloadState.STARTED [1/2, 2] 10 3 8 true = none ↔
      (DownloadState.STARTED = DownloadState.STOPPED ∨
        ([1/2, 2] : List ℚ) = [])) ∧
    (∀ v, eta DownloadState.STARTED [1/2, 2] 10 3 8 true = some v →
      v = pyRound (etaAverage [1/2, 2] * remainingPackets 10 3 8 true) ∧
      0 ≤ v)) :=
  eta_spec DownloadState.STARTED [1/2, 2] 10 3 8 true
    (by intro t ht; fin_cases ht <;> norm_num) (by norm_num)

/-- C8. In sequential mode `parseWrapper` fires a progress notification after
every item; in parallel mode it fires exactly for the items whose ID is a
multiple of the worker count `N` — hence, along the contiguous dispatched ID
range, after every `N`-th item: from one notifying ID, none of the next
`N - 1` IDs notifies and the ID `N` later does. -/
theorem progress_notification_policy (certNumber maxWorkers : Nat)
    (_hw : 0 < maxWorkers) :
    (parseWrapperEmits certNumber maxWorkers false = true) ∧
    (parseWrapperEmits certNumber maxWorkers true = true ↔
      certNumber % maxWorkers = 0) ∧
    (certNumber % maxWorkers = 0 →
      parseWrapperEmits (certNumber + maxWorkers) maxWorkers true = true ∧
      ∀ j, certNumber < j → j < certNumber + maxWorkers →
        parseWrapperEmits j maxWorkers true = false) := by
  refine ⟨by simp [parseWrapperEmits], by simp [parseWrapperEmits], ?_⟩
  intro h
  constructor
  · simp [parseWrapperEmits, Nat.add_mod_right, h]
  · intro j hj1 hj2
    obtain ⟨t, rfl⟩ := Nat.dvd_of_mod_eq_zero h
    obtain ⟨d, rfl⟩ : ∃ d, j = maxWorkers * t + d :=
      ⟨j - maxWorkers * t, by omega⟩
    have hd : 0 < d ∧ d < maxWorkers := by omega
    have hmod : (maxWorkers * t + d) % maxWorkers = d := by
      rw [Nat.mul_add_mod]
      exact Nat.mod_eq_of_lt hd.2
    simp [parseWrapperEmits, hmod]
    omega

/-- C8 -- witness: with 8 workers, item 16 notifies in both modes; items
17–23 do not notify in parallel mode and item 24 does. -/
theorem progress_notification_policy_witness :
    (parseWrapperEmits 16 8 false = true) ∧
    (parseWrapperEmits 16 8 true = true ↔ 16 % 8 = 0) ∧
    (16 % 8 = 0 →
      parseWrapperEmits (16 + 8) 8 true = true ∧
      ∀ j, 16 < j → j < 16 + 8 → parseWrapperEmits j 8 true = false) :=
  progress_notification_policy 16 8 (by decide)

/-- C9 -- counterexample. `stop()`'s guard accepts a task still in
`CREATED` (where `running` is true and `cancelled` false) and moves it
straight to `STOPPED`; the edge `Created → Stopped` is outside the claimed
lifecycle graph. -/
theorem lifecycle_graph_counterexample :
    stopTransition DownloadState.CREATED = DownloadState.STOPPED ∧
      claimedEdge DownloadState.CREATED DownloadState.STOPPED = false := by
  decide

/-- C9 -- amended claim. Under any sequence of the public operations the
possible state transitions are exactly: into `STARTED` from any state
(`start` is unguarded), `STARTED → COMPLETED` (a run completes only when it
was never stopped), into `SAVED` from any state (a successful save never
inspects the state), and into `STOPPED` exactly from the states where
`running` holds and `cancelled` does not. Hence only the completion and
stop transitions are confined to the lifecycle graph — extended with the
edge `Created → Stopped` — and strictly increase the lifecycle rank; the
unguarded `start` and save operations can leave the graph and revisit
states (for example `Stopped → Started`). -/
theorem lifecycle_transitions (s s' : DownloadState) :
    (LifecycleStep s s' ↔
      (s' = DownloadState.STARTED ∨
        (s = DownloadState.STARTED ∧ s' = DownloadState.COMPLETED) ∨
        s' = DownloadState.SAVED ∨
        (s' = DownloadState.STOPPED ∧ running s = true ∧
          cancelled s = false))) ∧
    (LifecycleStep s s' → s ≠ DownloadState.DEFAULT →
      (s' = DownloadState.COMPLETED ∨ s' = DownloadState.STOPPED) →
      amendedEdge s s' = true ∧ stateRank s < stateRank s') := by
  constructor
  · constructor
    · intro h
      cases h with
      | startEntry s => exact Or.inl rfl
      | runComplete => exact Or.inr (Or.inl ⟨rfl, rfl⟩)
      | saveSuccess s => exact Or.inr (Or.inr (Or.inl rfl))
      | doStop s hne =>
        refine Or.inr (Or.inr (Or.inr ?_))
        cases s with
        | DEFAULT => exact ⟨by decide, by decide, by decide⟩
        | CREATED => exact ⟨by decide, by decide, by decide⟩
        | STARTED => exact ⟨by decide, by decide, by decide⟩
        | COMPLETED => exact absurd (by decide) hne
        | SAVED => exact absurd (by decide) hne
        | STOPPED => exact absurd (by decide) hne
    · intro h
      rcases h with rfl | ⟨rfl, rfl⟩ | rfl | ⟨rfl, hr, hc⟩
      · exact .startEntry s
      · exact .runComplete
      · exact .saveSuccess s
      · have hst : stopTransition s = DownloadState.STOPPED := by
          simp [stopTransition, hr, hc]
        have hne : stopTransition s ≠ s := by
          rw [hst]
          intro heq
          rw [← heq] at hc
          simp [cancelled] at hc
        exact hst ▸ LifecycleStep.doStop s hne
  · intro h hdef htarget
    cases h with
    | startEntry s => rcases htarget with h1 | h1 <;> exact absurd h1 (by decide)
    | runComplete => exact ⟨by decide, by decide⟩
    | saveSuccess s => rcases htarget with h1 | h1 <;> exact absurd h1 (by decide)
    | doStop s hne =>
      cases s with
      | DEFAULT => exact absurd rfl hdef
      | CREATED => exact ⟨by decide, by decide⟩
      | STARTED => exact ⟨by decide, by decide⟩
      | COMPLETED => exact absurd (by decide) hne
      | SAVED => exact absurd (by decide) hne
      | STOPPED => exact absurd (by decide) hne

/-- C9 -- witness: `stop()` on a created task is the transition
`Created → Stopped`; it lies on the amended graph and increases the rank. -/
theorem lifecycle_transitions_witness :
    amendedEdge DownloadState.CREATED DownloadState.STOPPED = true ∧
      stateRank DownloadState.CREATED < stateRank DownloadState.STOPPED := by
  have hstep : LifecycleStep DownloadState.CREATED DownloadState.STOPPED := by
    have h : stopTransition DownloadState.CREATED = DownloadState.STOPPED := by
      decide
    exact h ▸ LifecycleStep.doStop DownloadState.CREATED (by decide)
  exact (lifecycle_transitions DownloadState.CREATED DownloadState.STOPPED).2
    hstep (by decide) (Or.inr rfl)

/-- C10. For every position within the batch, the reported progress
percentage is at most 99: a rounded percentage of 100 is capped to 99, and
no position within the batch rounds above 100. -/
theorem progress_capped (relativeCert batchSize : Nat)
    (hbs : 0 < batchSize) (hrel : relativeCert ≤ batchSize) :
    progress relativeCert batchSize ≤ 99 := by
  have hx : (relativeCert : ℚ) / (batchSize : ℚ) * 100 ≤ ((100 : ℤ) : ℚ) := by
    have hdiv : (relativeCert : ℚ) / (batchSize : ℚ) ≤ 1 := by
      rw [div_le_one (by exact_mod_cast hbs)]
      exact_mod_cast hrel
    calc (relativeCert : ℚ) / (batchSize : ℚ) * 100
        ≤ 1 * 100 := by
          exact mul_le_mul_of_nonneg_right hdiv (by norm_num)
      _ = ((100 : ℤ) : ℚ) := by norm_num
  have hle := pyRound_le_of_le _ _ hx
  simp only [progress]
  split_ifs with h
  · omega
  · omega

/-- C10 -- witness: halfway through a batch of 2 the reported progress is at
most 99. -/
theorem progress_capped_witness : progress 1 2 ≤ 99 :=
  progress_capped 1 2 (by decide) (by decide)

end Kangaroo
